import Mathlib

/-!
Verification of the Elixir-repo management scripts: a shallow embedding of
the five Python scripts (`1_scan_repos.py`, `2_filter_repos.py`,
`action_check_uncommitted.py`, `action_placeholder.py`, `run.py`) and proofs
about the embedded operations.

Modelling conventions:
- paths and JSON strings are Lean `String`s;
- the filesystem is a pair of boolean predicates (`pathExists`, `isDir`);
- a JSON document on disk is `Option (List (String × List String))`:
  `none` is a missing file (`FileNotFoundError`), `some data` a parsed
  top-level object; every document this toolchain reads or writes has a
  single field holding a list of path strings, so values are typed as
  `List String`;
- the outcome of the external `git status --porcelain` subprocess is an
  inductive carrying either the captured stdout or an exception;
- Python string primitives (`str.endswith`, `str.strip`, sorting order)
  are embedded as transparent functions on the character list `String.data`
  so that concrete instances evaluate inside the kernel.
-/

/-- Embedding of Python's `s.endswith(suffix)`: `suffix` is a suffix of `s`
(character-wise).  When `suffix` is longer than `s` the dropped list keeps
its length distinct from `suffix.data`, so the comparison is `false`,
matching Python. -/
def endswith (s suffix : String) : Bool :=
  s.data.drop (s.data.length - suffix.data.length) == suffix.data

/-- Embedding of Python's `s.strip()` with no argument: remove whitespace
from both ends of the string. -/
def strip (s : String) : String :=
  ⟨((s.data.dropWhile Char.isWhitespace).reverse.dropWhile Char.isWhitespace).reverse⟩

/-- Embedding of Python's `data.get(key, default)` on a parsed JSON object,
modelled as an association list (JSON object keys are unique, so the first
match is the match). -/
def dict_get {β : Type} (data : List (String × β)) (key : String) (dflt : β) : β :=
  match data.find? (fun kv => kv.fst == key) with
  | some kv => kv.snd
  | none => dflt

/-- Python's default ascending string comparison, used by `list.sort()`:
the lexicographic order on strings, as a boolean relation. -/
def str_le (a b : String) : Bool := a ≤ b

/-- The spec's notion of the "final path segment" of a path string: the
characters after the last `/` (the whole string when there is no `/`).
This definition follows the spec's words, not the code; it exists to be
compared with the code's `endswith`-based filter. -/
def specLastSegment (p : String) : String :=
  ⟨(p.data.reverse.takeWhile (fun c => c ≠ '/')).reverse⟩

namespace ScanRepos

/-- The filesystem as seen by `1_scan_repos.py`: which paths exist
(`Path.exists()`) and which are directories (`Path.is_dir()`). -/
structure FS where
  pathExists : String → Bool
  isDir : String → Bool

/-- `is_git_repo` (1_scan_repos.py:10-12): the directory contains `.git`. -/
def is_git_repo (fs : FS) (path : String) : Bool :=
  fs.pathExists (path ++ "/.git")

/-- `is_elixir_repo` (1_scan_repos.py:15-17): the directory contains
`mix.exs`. -/
def is_elixir_repo (fs : FS) (path : String) : Bool :=
  fs.pathExists (path ++ "/mix.exs")

/-- `scan_repos` (1_scan_repos.py:20-31): keep the items of the parent
directory that are directories and are both git and Elixir repos, then
`elixir_repos.sort()`.  `items` is the listing produced by
`parent_dir.iterdir()`, in arbitrary order. -/
def scan_repos (fs : FS) (items : List String) : List String :=
  List.mergeSort
    (items.filter (fun item =>
      fs.isDir item && (is_git_repo fs item && is_elixir_repo fs item)))
    str_le

/-- The exclude-list derivation in `main` (1_scan_repos.py:45):
`[r for r in repos if not r.endswith("DSPex")]`. -/
def excluded_repos (repos : List String) : List String :=
  repos.filter (fun r => !(endswith r "DSPex"))

end ScanRepos

namespace FilterRepos

/-- `load_repos` (2_filter_repos.py:7-15): a missing file
(`FileNotFoundError`) is caught, a message printed, and `[]` returned;
otherwise the result is `data.get("repos", [])` on the parsed object. -/
def load_repos (file : Option (List (String × List String))) : List String :=
  match file with
  | some data => dict_get data "repos" []
  | none => []

/-- The subtraction comprehension in `filter_repos` (2_filter_repos.py:24):
`[r for r in main_repos if r not in exclude_repos]`. -/
def subtract (main_repos exclude_repos : List String) : List String :=
  main_repos.filter (fun r => !(exclude_repos.contains r))

/-- `filter_repos` (2_filter_repos.py:18-25): load both files and subtract. -/
def filter_repos
    (mainFile excludeFile : Option (List (String × List String))) :
    List String :=
  subtract (load_repos mainFile) (load_repos excludeFile)

end FilterRepos

namespace ActionCheckUncommitted

/-- Outcome of the `git status --porcelain` subprocess call in
`check_uncommitted` (action_check_uncommitted.py:13-19): either the call
completed and captured stdout, or some exception was raised (timeout,
missing tool, invalid path, ...). -/
inductive GitResult where
  | completed (stdout : String)
  | failure (msg : String)

/-- `check_uncommitted` (action_check_uncommitted.py:9-23): dirty iff the
stripped stdout is non-empty; any exception is caught, a diagnostic printed,
and `False` returned. -/
def check_uncommitted : GitResult → Bool
  | .completed stdout => strip stdout != ""
  | .failure _ => false

end ActionCheckUncommitted

namespace Run

/-- What `main` in `run.py` (lines 42-81) dispatches to, given
`sys.argv[1:]`. -/
inductive Dispatch where
  | usage
  | scan
  | filterCmd
  | setup
  | uncommitted
  | placeholder
  | unknown (cmd : String)
deriving DecidableEq

/-- The dispatch of `main` (run.py:42-81): with no argument print usage and
return; otherwise compare `sys.argv[1]` against the five known commands in
order; anything else prints an error and calls `sys.exit(1)`. -/
def main : List String → Dispatch
  | [] => .usage
  | command :: _ =>
    if command == "scan" then .scan
    else if command == "filter" then .filterCmd
    else if command == "setup" then .setup
    else if command == "uncommitted" then .uncommitted
    else if command == "placeholder" then .placeholder
    else .unknown command

/-- The process exit status of each dispatch outcome: `sys.exit(1)` on an
unknown command, normal return (status 0) otherwise. -/
def exit_code : Dispatch → Nat
  | .unknown _ => 1
  | _ => 0

/-- The load of the filtered list in `run_action` (run.py:23-25):
`data.get("repos", [])` on the parsed `repos_filtered.json` object. -/
def run_action_repos (data : List (String × List String)) : List String :=
  dict_get data "repos" []

end Run

section Helpers

theorem str_le_trans (a b c : String) : str_le a b → str_le b c → str_le a c := by
  simp only [str_le, decide_eq_true_eq]; exact le_trans

theorem str_le_total (a b : String) : (str_le a b || str_le b a) = true := by
  simp only [str_le, Bool.or_eq_true, decide_eq_true_eq]; exact le_total a b

theorem sorted_mergeSort_str_le (l : List String) :
    List.Sorted (· ≤ ·) (l.mergeSort str_le) := by
  have h := List.sorted_mergeSort str_le_trans str_le_total l
  exact h.imp (fun hab => by simpa [str_le, decide_eq_true_eq] using hab)

theorem scan_repos_sorted (fs : ScanRepos.FS) (items : List String) :
    List.Sorted (· ≤ ·) (ScanRepos.scan_repos fs items) :=
  sorted_mergeSort_str_le _

theorem mem_subtract (A B : List String) (r : String) :
    r ∈ FilterRepos.subtract A B ↔ (r ∈ A ∧ r ∉ B) := by
  simp [FilterRepos.subtract, List.mem_filter, List.contains]

/-- A concrete filesystem used to instantiate the scanner theorems: one
directory `repo1` holding both marker files. -/
def demoFS : ScanRepos.FS :=
  ⟨fun p => p == "repo1/.git" || p == "repo1/mix.exs", fun _ => true⟩

end Helpers

/-- Claim C1 (counterexample): the exclude-list derivation drops
`/repos/MyDSPex`, whose final path segment is `MyDSPex`, not `DSPex` — so an
entry can be dropped although its last path segment does not equal the
designated name, refuting the claimed "if and only if". -/
theorem C1_counterexample :
    ScanRepos.excluded_repos ["/repos/MyDSPex"] = [] ∧
    specLastSegment "/repos/MyDSPex" ≠ "DSPex" := by decide

/-- Claim C1 (amended): the exclude list equals the full scanned list with
exactly those entries removed whose path string ends with `"DSPex"` (a
superset of the entries whose final segment equals `"DSPex"`), and the
remaining entries keep their relative order (the result is a sublist). -/
theorem C1_theorem (L : List String) :
    (∀ r, r ∈ ScanRepos.excluded_repos L ↔ (r ∈ L ∧ endswith r "DSPex" = false)) ∧
    (ScanRepos.excluded_repos L).Sublist L := by
  constructor
  · intro r
    simp [ScanRepos.excluded_repos, List.mem_filter, Bool.not_eq_true']
  · exact List.filter_sublist L

/-- Claim C2: the filter step's subtraction contains an entry iff it occurs
in the first list and not in the second, preserves the order of the first
list (sublist), and on `A = [p1, p2, p3]`, `B = [p2]` yields `[p1, p3]`. -/
theorem C2_theorem (A B : List String) :
    (∀ r, r ∈ FilterRepos.subtract A B ↔ (r ∈ A ∧ r ∉ B)) ∧
    (FilterRepos.subtract A B).Sublist A ∧
    FilterRepos.subtract ["p1", "p2", "p3"] ["p2"] = ["p1", "p3"] :=
  ⟨fun r => mem_subtract A B r, List.filter_sublist A, by decide⟩

/-- Claim C3: a directory item of the parent listing appears in the
scanner's result iff it contains both the `.git` marker and the `mix.exs`
marker. -/
theorem C3_theorem (fs : ScanRepos.FS) (items : List String) (d : String)
    (hmem : d ∈ items) (hdir : fs.isDir d = true) :
    d ∈ ScanRepos.scan_repos fs items ↔
      (ScanRepos.is_git_repo fs d = true ∧ ScanRepos.is_elixir_repo fs d = true) := by
  simp [ScanRepos.scan_repos, List.mem_filter, hmem, hdir]

/-- Claim C3 (witness): instantiation on a one-directory filesystem holding
both marker files. -/
theorem C3_witness :
    "repo1" ∈ ScanRepos.scan_repos demoFS ["repo1"] ↔
      (ScanRepos.is_git_repo demoFS "repo1" = true ∧
        ScanRepos.is_elixir_repo demoFS "repo1" = true) :=
  C3_theorem demoFS ["repo1"] "repo1" (by simp) rfl

/-- Claim C4 (counterexample): a completed status query whose stdout is the
non-empty string `"\n"` is reported clean, because the code tests the
stripped output — refuting "dirty iff the query returns non-empty output"
as literally stated. -/
theorem C4_counterexample :
    ActionCheckUncommitted.check_uncommitted (.completed "\n") = false ∧
    "\n" ≠ "" := by decide

/-- Claim C4 (amended): the check reports dirty iff the query completed and
its output is non-empty after stripping whitespace; in particular every
failed query (timeout, missing tool, invalid path) is reported clean rather
than raising. -/
theorem C4_theorem (res : ActionCheckUncommitted.GitResult) :
    ActionCheckUncommitted.check_uncommitted res = true ↔
      ∃ out, res = .completed out ∧ strip out ≠ "" := by
  cases res with
  | completed out => simp [ActionCheckUncommitted.check_uncommitted, bne_iff_ne]
  | failure msg => simp [ActionCheckUncommitted.check_uncommitted]

/-- Claim C5: the filter step is total on missing inputs — a missing file
loads as the empty list, so with the main file missing the result is `[]`,
with the exclude file missing the result is the main list, and with both
missing the result is `[]`; no case raises. -/
theorem C5_theorem (d : List (String × List String)) (M : List String)
    (h : FilterRepos.load_repos (some d) = M) :
    FilterRepos.filter_repos (some d) none = M ∧
    FilterRepos.filter_repos none (some d) = [] ∧
    FilterRepos.filter_repos none none = [] ∧
    FilterRepos.load_repos none = [] := by
  have hnone : FilterRepos.load_repos none = [] := rfl
  refine ⟨?_, ?_, rfl, rfl⟩
  · simp [FilterRepos.filter_repos, h, hnone, FilterRepos.subtract, List.contains]
  · simp [FilterRepos.filter_repos, hnone, FilterRepos.subtract]

/-- Claim C5 (witness): instantiation on a main file holding one path. -/
theorem C5_witness :
    FilterRepos.filter_repos (some [("repos", ["/r/a"])]) none = ["/r/a"] ∧
    FilterRepos.filter_repos none (some [("repos", ["/r/a"])]) = [] ∧
    FilterRepos.filter_repos none none = [] ∧
    FilterRepos.load_repos none = [] :=
  C5_theorem [("repos", ["/r/a"])] ["/r/a"] rfl

/-- Claim C6: the dispatcher maps every command outside
`{scan, filter, setup, uncommitted, placeholder}` to the unknown-command
branch, which exits with status 1, and maps a missing command argument to
the usage branch, which returns normally with status 0. -/
theorem C6_theorem :
    (∀ cmd rest, cmd ∉ ["scan", "filter", "setup", "uncommitted", "placeholder"] →
      Run.main (cmd :: rest) = .unknown cmd ∧
        Run.exit_code (Run.main (cmd :: rest)) = 1) ∧
    (Run.main [] = .usage ∧ Run.exit_code (Run.main []) = 0) := by
  refine ⟨?_, rfl, rfl⟩
  intro cmd rest h
  simp only [List.mem_cons, List.not_mem_nil, or_false, not_or] at h
  obtain ⟨h1, h2, h3, h4, h5⟩ := h
  simp [Run.main, Run.exit_code, h1, h2, h3, h4, h5]

/-- Claim C6 (witness): instantiation on the unknown command
`"frobnicate"`. -/
theorem C6_witness :
    Run.main ["frobnicate"] = .unknown "frobnicate" ∧
    Run.exit_code (Run.main ["frobnicate"]) = 1 :=
  C6_theorem.1 "frobnicate" [] (by decide)

/-- Claim C7: for every filesystem state and parent-directory listing, the
scanner's result list is sorted in ascending (lexicographic) string
order. -/
theorem C7_theorem (fs : ScanRepos.FS) (items : List String) :
    List.Sorted (· ≤ ·) (ScanRepos.scan_repos fs items) :=
  scan_repos_sorted fs items

/-- Claim C8: composing the exclude-list derivation with the filter step
recovers exactly the excluded entries — subtracting the exclude list from
the scanned list leaves precisely the entries ending with `"DSPex"`, in
their original order. -/
theorem C8_theorem (L : List String) :
    FilterRepos.subtract L (ScanRepos.excluded_repos L) =
      L.filter (fun r => endswith r "DSPex") := by
  unfold FilterRepos.subtract ScanRepos.excluded_repos
  apply List.filter_congr
  intro r hr
  by_cases he : endswith r "DSPex" = true
  · simp [List.contains, List.mem_filter, he]
  · simp [List.contains, List.mem_filter, he, hr]

/-- Claim C9: sortedness is an invariant of every list-producing step of
the pipeline — the scanner's output is sorted, and both the exclude-list
derivation and the filter subtraction map a sorted first input to a sorted
output. -/
theorem C9_theorem :
    (∀ fs items, List.Sorted (· ≤ ·) (ScanRepos.scan_repos fs items)) ∧
    (∀ L, List.Sorted (· ≤ ·) L →
      List.Sorted (· ≤ ·) (ScanRepos.excluded_repos L)) ∧
    (∀ A B, List.Sorted (· ≤ ·) A →
      List.Sorted (· ≤ ·) (FilterRepos.subtract A B)) :=
  ⟨scan_repos_sorted,
   fun L h => List.Pairwise.sublist (List.filter_sublist L) h,
   fun A _ h => List.Pairwise.sublist (List.filter_sublist A) h⟩

/-- Claim C9 (witness): instantiation of the two conditional parts on the
sorted singleton list `["/r/a"]`. -/
theorem C9_witness :
    List.Sorted (· ≤ ·) (ScanRepos.excluded_repos ["/r/a"]) ∧
    List.Sorted (· ≤ ·) (FilterRepos.subtract ["/r/a"] []) :=
  ⟨C9_theorem.2.1 ["/r/a"] (by simp),
   C9_theorem.2.2 ["/r/a"] [] (by simp)⟩

/-- Claim C10: loading a parsed JSON object with no `"repos"` field yields
the empty list, both in the filter step's loader and in the orchestrator's
action loader. -/
theorem C10_theorem (d : List (String × List String))
    (h : ∀ kv ∈ d, kv.fst ≠ "repos") :
    FilterRepos.load_repos (some d) = [] ∧ Run.run_action_repos d = [] := by
  have hf : d.find? (fun kv => kv.fst == "repos") = none := by
    rw [List.find?_eq_none]
    intro kv hkv
    simpa using h kv hkv
  constructor <;> simp [FilterRepos.load_repos, Run.run_action_repos, dict_get, hf]

/-- Claim C10 (witness): instantiation on an object with a single unrelated
field. -/
theorem C10_witness :
    FilterRepos.load_repos (some [("other", ["/r/a"])]) = [] ∧
    Run.run_action_repos [("other", ["/r/a"])] = [] :=
  C10_theorem [("other", ["/r/a"])] (by decide)
